import Mathlib

/-!
Verification of the inn-telegram-bot repository: shallow embedding of the
quota ledger, PRO entitlement check, result cache, provider clients,
normalizer/formatter and webhook dispatcher found in `src/index.js` and the
variant files `src/unnamed/part_000` … `part_005`, together with proofs of
the behavioural properties of those functions.

Naming convention: a definition suffixed `_index` embeds `src/index.js`;
`_p000`, `_p001`, `_p004`, `_p005` embed the corresponding
`src/unnamed/part_NNN` variant (`_p000v2` is the second document inside
`part_000`). Timestamps are milliseconds as `Int` (JS `Date.now()` /
`getTime()`); JSON documents are modelled by the `Js` type below.
-/

namespace InnBot

/-- A JavaScript value, as the bot variants manipulate them: `undefined`,
`null`, booleans, numbers (integral — the payloads under test carry no
fractional numbers), strings, objects and arrays. -/
inductive Js where
  | undefined : Js
  | jsnull : Js
  | bool : Bool → Js
  | num : Int → Js
  | str : String → Js
  | obj : List (String × Js) → Js
  | arr : List Js → Js

/-- JS truthiness: `undefined`, `null`, `false`, `0` and `""` are falsy,
every object/array (and every other primitive) is truthy. -/
def Js.truthy : Js → Bool
  | .undefined => false
  | .jsnull => false
  | .bool b => b
  | .num n => n != 0
  | .str s => s != ""
  | .obj _ => true
  | .arr _ => true

/-- Field lookup helper for object fields. -/
def Js.lookupField : List (String × Js) → String → Js
  | [], _ => .undefined
  | (k, v) :: rest, key => if k = key then v else Js.lookupField rest key

/-- Property access `a.b` / `a?.b` as the sources use it: on an object it
returns the named field (or `undefined`); on anything else it yields
`undefined` (the sources only dereference values they have null-guarded,
or use optional chaining). -/
def Js.get : Js → String → Js
  | .obj fields, key => Js.lookupField fields key
  | _, _ => .undefined

/-- Array index access `a?.[i]`. -/
def Js.idx : Js → Nat → Js
  | .arr items, i => items.getD i .undefined
  | _, _ => .undefined

/-- JS `a || b`: `a` when truthy, otherwise `b`. -/
def Js.orJs (a b : Js) : Js :=
  if a.truthy then a else b

/-- JS `v || null`, used when building result records (`name: name || null`). -/
def Js.orNull (v : Js) : Js :=
  if v.truthy then v else .jsnull

/-!
## Quota ledger

`src/index.js` (`checkAndConsumeFreeQuota`, lines 449–484): the state of
`bot_quota_daily` for one user and one day is the `used` counter of the
row, or `none` when no row exists yet. The function first runs
`upsert({...key, used: 0, updated_at}, { onConflict: "tg_user_id,day" })`
— its comment says "upsert row if missing", but no `ignoreDuplicates`
option is passed, so the supabase default merge-duplicates resolution
updates a conflicting row with the payload columns, resetting the stored
`used` to 0 on every call — then reads `used` from the row returned by
the chained `.select().single()`, computes
`left = Math.max(0, FREE_DAILY_LIMIT - used)` (truncated subtraction on
`Nat`), rejects when `left <= 0`, and otherwise writes `used + 1`.
-/

/-- `checkAndConsumeFreeQuota` from `src/index.js`, as a state transformer
on today's quota row. The bootstrap upsert overwrites the row (prior
state `row` included) with `used = 0` under the merge-duplicates default,
and the select returns that post-upsert row, so the `used` the function
reads is always 0. Returns `(allowed, left, new row)`. -/
def checkAndConsumeFreeQuota (limit : Nat) (row : Option Nat) : Bool × Nat × Option Nat :=
  let used := 0
  let left := limit - used
  if left ≤ 0 then
    (false, 0, some used)
  else
    (true, left - 1, some (used + 1))

/-- The quota decisions produced by a sequence of lookup requests handled
by `handleInn` of `src/index.js` for one non-PRO user on one day: each
request consults `checkAndConsumeFreeQuota` (the tax id itself plays no
role in the quota decision there). -/
def runQuota (limit : Nat) (inns : List String) (row : Option Nat) : List Bool :=
  match inns with
  | [] => []
  | _ :: rest =>
    let r := checkAndConsumeFreeQuota limit row
    r.1 :: runQuota limit rest r.2.2

/-- One lookup request in `handleInn` of `src/unnamed/part_000` (first
document, lines 296–335) for a non-PRO user: read `getDailyUsed`, reject
when `used >= FREE_DAILY_LIMIT`; otherwise serve from cache (if the inn is
cached) or fetch and cache, incrementing `used` on both allowed paths.
State: `(allowed, new used count, new set of cached tax ids)`. -/
def handleInn_p000 (limit : Nat) (inn : String) (q : Nat) (cache : List String) :
    Bool × Nat × List String :=
  if limit ≤ q then
    (false, q, cache)
  else if inn ∈ cache then
    (true, q + 1, cache)
  else
    (true, q + 1, inn :: cache)

/-- The quota decisions of `part_000`'s `handleInn` over a sequence of tax
ids, threading the daily counter and the cache. -/
def runInn_p000 (limit : Nat) (inns : List String) (q : Nat) (cache : List String) :
    List Bool :=
  match inns with
  | [] => []
  | inn :: rest =>
    let r := handleInn_p000 limit inn q cache
    r.1 :: runInn_p000 limit rest r.2.1 r.2.2

lemma runQuota_reset (inns : List String) (row : Option Nat) :
    runQuota 3 inns row = List.replicate inns.length true := by
  induction inns generalizing row with
  | nil => simp [runQuota]
  | cons x rest ih =>
    simp [runQuota, checkAndConsumeFreeQuota, ih, List.replicate_succ]

lemma runInn_p000_go (inns : List String) (limit q : Nat) (cache : List String)
    (hle : q ≤ limit) (hlen : q + inns.length = limit + 1) :
    runInn_p000 limit inns q cache = List.replicate (limit - q) true ++ [false] := by
  induction inns generalizing q cache with
  | nil =>
    simp at hlen
    omega
  | cons x rest ih =>
    simp [List.length_cons] at hlen
    by_cases hfull : q = limit
    · have hrest : rest.length = 0 := by omega
      have hrest' : rest = [] := List.eq_nil_of_length_eq_zero hrest
      subst hrest'
      simp [runInn_p000, handleInn_p000, hfull]
    · have hlt : q < limit := lt_of_le_of_ne hle hfull
      have hnotfull : ¬ limit ≤ q := by omega
      by_cases hc : x ∈ cache
      · have hstep : runInn_p000 limit (x :: rest) q cache
            = true :: runInn_p000 limit rest (q + 1) cache := by
          simp [runInn_p000, handleInn_p000, hnotfull, hc]
        rw [hstep, ih (q + 1) cache (by omega) (by omega)]
        have hrep : limit - q = (limit - (q + 1)) + 1 := by omega
        simp [hrep, List.replicate_succ]
      · have hstep : runInn_p000 limit (x :: rest) q cache
            = true :: runInn_p000 limit rest (q + 1) (x :: cache) := by
          simp [runInn_p000, handleInn_p000, hnotfull, hc]
        rw [hstep, ih (q + 1) (x :: cache) (by omega) (by omega)]
        have hrep : limit - q = (limit - (q + 1)) + 1 := by omega
        simp [hrep, List.replicate_succ]

/-- C1 (code bug): the bootstrap upsert of `checkAndConsumeFreeQuota`
resets the stored daily counter to 0 on every call (the supabase
merge-duplicates default, contradicting the inline "upsert row if
missing" comment), so at the default limit 3 the `src/index.js` gate
approves the fourth request of a fresh non-PRO user — and every request
of any sequence whatsoever — where the claim requires the `(N+1)`-th to
be rejected; the `part_000` variant (`handleInn` with
`getDailyUsed`/`incDailyUsed`) does satisfy the claim as stated: `N`
approvals then a rejection, for any tax-id sequence and any prior cache
contents. -/
theorem c1_quota_reset_bug :
    runQuota 3 ["7707083893", "7707083893", "500100732259", "7707083893"] none
        = [true, true, true, true] ∧
    (∀ inns : List String, runQuota 3 inns none = List.replicate inns.length true) ∧
    (∀ (limit : Nat) (inns : List String) (cache : List String),
        inns.length = limit + 1 →
        runInn_p000 limit inns 0 cache = List.replicate limit true ++ [false]) := by
  refine ⟨by decide, ?_, ?_⟩
  · intro inns
    exact runQuota_reset inns none
  · intro limit inns cache hlen
    have h := runInn_p000_go inns limit 0 cache (by simp) (by simpa using hlen)
    simpa using h

/-- Claim C1 witness: the `part_000` conjunct evaluated at the default
limit 3 with four requests (repeated and distinct tax ids) — exactly the
first three are allowed there. -/
theorem c1_quota_reset_bug_witness :
    runInn_p000 3 ["7707083893", "7707083893", "500100732259", "7707083893"] 0 []
        = [true, true, true, false] := by
  have h := c1_quota_reset_bug.2.2 3
    ["7707083893", "7707083893", "500100732259", "7707083893"] [] (by decide)
  simpa using h

/-!
## PRO entitlement predicate

Three variants carry a PRO check. `src/unnamed/part_005` (`isPro`, lines
155–160) and `src/unnamed/part_004` (`isProUser`, lines 283–290) read the
`bot_users` row (`plan`, `pro_until`); `src/index.js` (`isProUser`, lines
434–447) reads `subscriptions.pro_until` only and never consults a plan
field.
-/

/-- A `bot_users` row as `part_004`/`part_005` read it: the `plan` column
and the nullable `pro_until` expiry (ms timestamp). -/
structure BotUser where
  plan : String
  pro_until : Option Int

/-- `isPro` from `src/unnamed/part_005`: false without a user row or when
`plan !== "pro"`; true when no expiry is set; otherwise
`pro_until.getTime() > Date.now()`. -/
def isPro (user : Option BotUser) (now : Int) : Bool :=
  match user with
  | none => false
  | some u =>
    if u.plan != "pro" then false
    else
      match u.pro_until with
      | none => true
      | some t => now < t

/-- `isProUser` from `src/unnamed/part_004`: same checks written the other
way around (`plan === "pro"` guard, then `!pro_until` short-circuit). -/
def isProUser_p4 (user : Option BotUser) (now : Int) : Bool :=
  match user with
  | none => false
  | some u =>
    if u.plan = "pro" then
      match u.pro_until with
      | none => true
      | some t => now < t
    else false

/-- `isProUser` from `src/index.js`: reads `subscriptions.pro_until` for
the user (`none` when there is no row or the column is null) and returns
`proUntil && proUntil.getTime() > Date.now()` — false whenever no expiry
is set, with no plan field involved. -/
def isProUser_index (pro_until : Option Int) (now : Int) : Bool :=
  match pro_until with
  | none => false
  | some t => now < t

/-- The PRO predicate as the spec words it (§3 invariant): plan is `"pro"`
AND (no expiry set OR the expiry is strictly in the future). Stated here
as the reference point the code variants are compared against. -/
def specProPredicate (plan : String) (pro_until : Option Int) (now : Int) : Bool :=
  plan == "pro" &&
    (match pro_until with
     | none => true
     | some t => now < t)

/-- Claim C2 counterexample: the spec's PRO predicate accepts a pro-plan
record with no expiry set, but `src/index.js`'s `isProUser` returns false
for a subscription with no expiry (it only accepts a set, future
`pro_until`), so the claimed biconditional fails on that variant. -/
theorem c2_pro_counterexample :
    specProPredicate "pro" none 0 = true ∧ isProUser_index none 0 = false :=
  ⟨rfl, rfl⟩

/-- C2 (amended): in the `part_004`/`part_005` variants the PRO predicate
holds iff plan is `"pro"` and (no expiry is set or the expiry is strictly
in the future), exactly the spec predicate; in the `src/index.js` variant
the predicate holds iff an expiry is set and is strictly in the future
(an absent expiry means not-PRO and no plan field is consulted). -/
theorem c2_pro_predicate_characterization :
    (∀ (u : BotUser) (now : Int),
        isPro (some u) now = specProPredicate u.plan u.pro_until now) ∧
    (∀ (user : Option BotUser) (now : Int),
        isProUser_p4 user now = isPro user now) ∧
    (∀ (pu : Option Int) (now : Int),
        isProUser_index pu now = true ↔ ∃ t, pu = some t ∧ now < t) := by
  refine ⟨?_, ?_, ?_⟩
  · intro u now
    cases hp : u.pro_until <;>
      by_cases hplan : u.plan = "pro" <;>
        simp [isPro, specProPredicate, hp, hplan]
  · intro user now
    cases user with
    | none => rfl
    | some u =>
      cases hp : u.pro_until <;>
        by_cases hplan : u.plan = "pro" <;>
          simp [isPro, isProUser_p4, hp, hplan]
  · intro pu now
    cases pu with
    | none => simp [isProUser_index]
    | some t => simp [isProUser_index]

/-!
## Result cache freshness

`src/unnamed/part_004` (`getCachedInn`, lines 318–330) and
`src/unnamed/part_001` (`getCachedInn`, lines 140–158) filter the stored
row by age; `src/index.js` (`cacheGet`, lines 486–496) returns whatever
row exists with no freshness check (its `handleInn` comments "24h soft
logic: we'll just use what's in cache if exists").
-/

/-- An `inn_cache` row: the fetch timestamp (`updated_at`, ms) and the
stored payload. -/
structure InnCacheRow where
  updated_at : Int
  result : Js

/-- `cacheGet` from `src/index.js`: select the row for the inn and return
`data || null` — no TTL logic at all. -/
def cacheGet_index (row : Option InnCacheRow) : Option InnCacheRow :=
  row

/-- `getCachedInn` from `src/unnamed/part_004`: missing row gives null;
otherwise null when `Date.now() - updated_at > CACHE_TTL_HOURS in ms`,
else the stored result. -/
def getCachedInn_p4 (row : Option InnCacheRow) (now ttlMs : Int) : Option Js :=
  match row with
  | none => none
  | some item => if now - item.updated_at > ttlMs then none else some item.result

/-- `getCachedInn` from `src/unnamed/part_001`: missing row gives null;
the entry is served while `ageMs <= 24 * 60 * 60 * 1000`, else null (the
`Number.isFinite` guard is always satisfied in the integer model). -/
def getCachedInn_p1 (row : Option InnCacheRow) (now : Int) : Option Js :=
  match row with
  | none => none
  | some item =>
    let ageMs := now - item.updated_at
    if ageMs ≤ 24 * 60 * 60 * 1000 then some item.result else none

/-- Claim C3 counterexample: an entry fetched at time 0 read two days
later (age 172800000 ms > the 24h TTL of 86400000 ms) is still returned by
`src/index.js`'s `cacheGet` — the stale entry is served, not treated as
absent. -/
theorem c3_stale_cache_counterexample :
    cacheGet_index (some ⟨0, Js.jsnull⟩) = some ⟨0, Js.jsnull⟩ ∧
    ((172800000 : Int) - 0 > 86400000) :=
  ⟨rfl, by norm_num⟩

/-- C3 (amended): the `part_004` and `part_001` cache reads return null
for any entry strictly older than the TTL (24h in `part_001`), while the
`src/index.js` `cacheGet` performs no freshness check and returns the
stored row unconditionally. -/
theorem c3_cache_ttl :
    (∀ (item : InnCacheRow) (now ttlMs : Int), now - item.updated_at > ttlMs →
        getCachedInn_p4 (some item) now ttlMs = none) ∧
    (∀ (item : InnCacheRow) (now : Int), now - item.updated_at > 24 * 60 * 60 * 1000 →
        getCachedInn_p1 (some item) now = none) ∧
    (∀ row : Option InnCacheRow, cacheGet_index row = row) := by
  refine ⟨?_, ?_, ?_⟩
  · intro item now ttlMs h
    simp [getCachedInn_p4, h]
  · intro item now h
    simp [getCachedInn_p1]
    omega
  · intro row
    rfl

/-- Claim C3 witness: the two-day-old entry of the counterexample is
treated as absent by both TTL-checking variants. -/
theorem c3_cache_ttl_witness :
    getCachedInn_p4 (some ⟨0, Js.jsnull⟩) 172800000 86400000 = none ∧
    getCachedInn_p1 (some ⟨0, Js.jsnull⟩) 172800000 = none :=
  ⟨c3_cache_ttl.1 ⟨0, Js.jsnull⟩ 172800000 86400000 (by norm_num),
   c3_cache_ttl.2.1 ⟨0, Js.jsnull⟩ 172800000 (by norm_num)⟩

/-!
## PRO lookups and the quota ledger (frame property)

`handleInn` in `src/index.js` (lines 590–609) runs
`checkAndConsumeFreeQuota` only under `if (!pro)`; `handleInn` in
`src/unnamed/part_004` (lines 517–569) guards the `getDailyCount` limit
check and both `incDailyCount` calls (cache-hit path and fresh-fetch path)
with `!pro` as well.
-/

/-- `getDailyCount` from `src/unnamed/part_004`: 0 without Supabase,
otherwise the row's `cnt` (0 when absent). -/
def getDailyCount_p4 (hasSb : Bool) (row : Option Nat) : Nat :=
  if hasSb then row.getD 0 else 0

/-- `incDailyCount` from `src/unnamed/part_004`: read the current `cnt`
and upsert `cnt + 1` (two separate calls — see C9); no-op without
Supabase. -/
def incDailyCount_p4 (hasSb : Bool) (row : Option Nat) : Option Nat :=
  if hasSb then some (row.getD 0 + 1) else row

/-- The quota-ledger effect of one `handleInn` call in `src/index.js`:
PRO users skip `checkAndConsumeFreeQuota` entirely; non-PRO users run it.
Returns `(new quota row, proceed-to-lookup)`. -/
def handleInnQuota_index (pro : Bool) (limit : Nat) (row : Option Nat) :
    Option Nat × Bool :=
  if pro then (row, true)
  else
    let r := checkAndConsumeFreeQuota limit row
    (r.2.2, r.1)

/-- The quota-ledger effect of one `handleInn` call in
`src/unnamed/part_004`: the limit check runs only for non-PRO users with
Supabase; on a cache hit the counter is incremented only for non-PRO
users; on a fresh fetch likewise. Returns `(new quota row,
proceed-to-lookup)`. -/
def handleInnQuota_p4 (hasSb pro cacheHit : Bool) (limit : Nat) (row : Option Nat) :
    Option Nat × Bool :=
  if hasSb && !pro && decide (limit ≤ getDailyCount_p4 hasSb row) then
    (row, false)
  else if hasSb && cacheHit then
    (if !pro then incDailyCount_p4 hasSb row else row, true)
  else
    (if hasSb && !pro then incDailyCount_p4 hasSb row else row, true)

/-- C10: a lookup by a PRO user leaves the per-user per-day quota row
unchanged (neither created nor incremented) and is always allowed to
proceed, in both `src/index.js` and `src/unnamed/part_004` (cache hit or
miss, with or without Supabase). -/
theorem c10_pro_quota_frame :
    (∀ (limit : Nat) (row : Option Nat),
        handleInnQuota_index true limit row = (row, true)) ∧
    (∀ (hasSb cacheHit : Bool) (limit : Nat) (row : Option Nat),
        handleInnQuota_p4 hasSb true cacheHit limit row = (row, true)) := by
  constructor
  · intro limit row
    rfl
  · intro hasSb cacheHit limit row
    cases hasSb <;> cases cacheHit <;> simp [handleInnQuota_p4]

/-!
## Concurrent quota consumption (read-then-write race)

`checkAndConsumeFreeQuota` in `src/index.js` performs a select of `used`
and, in a later, separate call, an update to `used + 1` computed from the
value it read; `incDailyCount` in `src/unnamed/part_004` does the same
(its own comment: "REST upsert cannot atomic increment. We'll do: read ->
write."). Between a request's read and its write, other requests' steps
may be interleaved. The model below runs each request as a read step
(select + limit check) and a write step (the `used + 1` update) over the
shared counter, under an arbitrary interleaving schedule.
-/

/-- One scheduled step of a concurrent quota request: the request's
read-and-check, or its write-back. -/
inductive QAction where
  | read : Nat → QAction
  | write : Nat → QAction

/-- Shared ledger plus per-request progress: `used` is the stored
counter, `reads i` the value request `i` captured with its select
(`none` = not yet read), `results i` its outcome (`none` = pending). -/
structure RaceState where
  used : Nat
  reads : List (Option Nat)
  results : List (Option Bool)

/-- Apply one scheduled step. A read captures the current `used` and,
when `Math.max(0, limit - used) <= 0`, finishes the request with a
rejection; a write (only reachable on the allowed path, while the result
is still pending) stores `readValue + 1` and finishes with an approval —
exactly the two database calls of `checkAndConsumeFreeQuota` /
`incDailyCount`. -/
def raceStep (limit : Nat) (s : RaceState) : QAction → RaceState
  | .read i =>
    let u := s.used
    if limit - u ≤ 0 then
      { s with reads := s.reads.set i (some u), results := s.results.set i (some false) }
    else
      { s with reads := s.reads.set i (some u) }
  | .write i =>
    match s.reads.getD i none, s.results.getD i none with
    | some u, none =>
      { s with used := u + 1, results := s.results.set i (some true) }
    | _, _ => s

/-- Run a whole interleaving schedule. -/
def raceExec (limit : Nat) (sched : List QAction) (s : RaceState) : RaceState :=
  sched.foldl (raceStep limit) s

/-- C9: with daily limit 1 and a fresh counter (remaining allowance 1),
two simultaneous quota-consuming requests interleaved as
read₀, read₁, write₀, write₁ are BOTH approved, and the final stored
counter is 1 (a lost update) — the claim's "exactly `remaining` approvals
and `K - remaining` rejections" fails on the non-atomic read-then-write
increment, while the serialized schedule read₀, write₀, read₁ yields the
claimed one approval and one rejection. -/
theorem c9_quota_race_double_spend :
    (raceExec 1 [.read 0, .read 1, .write 0, .write 1] ⟨0, [none, none], [none, none]⟩).results
        = [some true, some true] ∧
    (raceExec 1 [.read 0, .read 1, .write 0, .write 1] ⟨0, [none, none], [none, none]⟩).used
        = 1 ∧
    (raceExec 1 [.read 0, .write 0, .read 1] ⟨0, [none, none], [none, none]⟩).results
        = [some true, some false] :=
  ⟨rfl, rfl, rfl⟩

/-!
## Webhook acknowledgement

`src/index.js` (`app.post("/webhook")`, lines 705–767) sends
`res.status(200).json({ok: true})` before dispatching the update and its
`catch` only logs; the first document of `src/unnamed/part_000` (lines
340–414) dispatches first but its `catch` still answers
`res.sendStatus(200)`. The `http.createServer` handler of
`src/unnamed/part_004` (lines 685–705) instead answers 500 from its
`catch` when `JSON.parse` of the body or `handleUpdate` throws, and 404
for unknown routes. Update processing is abstracted as a function
returning `Except` (an exception or normal completion).
-/

/-- The HTTP status produced by the `src/index.js` webhook route for one
inbound update: 200 is sent before processing, and a processing exception
is caught and only logged. -/
def webhookStatus_index (update : Js) (process : Js → Except String Unit) : Nat :=
  match process update with
  | .ok _ => 200
  | .error _ => 200

/-- The HTTP status produced by the `part_000` webhook route: every
dispatch branch ends in `res.sendStatus(200)` and the `catch` also
answers `res.sendStatus(200)`. -/
def webhookStatus_p000 (update : Js) (process : Js → Except String Unit) : Nat :=
  match process update with
  | .ok _ => 200
  | .error _ => 200

/-- The HTTP status produced by the `part_004` server handler for a
request: `GET /health` gives 200; `POST /webhook` parses the body
(`none` models a `JSON.parse` throw) and runs `handleUpdate`, answering
200 on success and 500 from the `catch` on any throw; other routes give
404. -/
def serverStatus_p4 (method path : String) (body : Option Js)
    (process : Js → Except String Unit) : Nat :=
  if method = "GET" then
    if path = "/health" then 200 else 404
  else if method = "POST" then
    if path = "/webhook" then
      match body with
      | none => 500
      | some upd =>
        match process upd with
        | .ok _ => 200
        | .error _ => 500
    else 404
  else 404

/-- Claim C6 counterexample: in the `part_004` variant, a webhook
delivery whose processing throws is answered with HTTP 500, not the
claimed success acknowledgement. -/
theorem c6_webhook_counterexample :
    serverStatus_p4 "POST" "/webhook" (some (Js.obj []))
        (fun _ => Except.error "boom") = 500 ∧ (500 : Nat) ≠ 200 :=
  ⟨rfl, by norm_num⟩

/-- C6 (amended): the `src/index.js` and `part_000` webhook handlers
answer HTTP 200 for every inbound update even when processing throws;
the `part_004` handler answers 500 whenever processing throws (or the
body fails to parse), and otherwise 200 — it never hangs without a
protocol response, but the acknowledgement is not always a success. -/
theorem c6_webhook_ack :
    (∀ (u : Js) (p : Js → Except String Unit), webhookStatus_index u p = 200) ∧
    (∀ (u : Js) (p : Js → Except String Unit), webhookStatus_p000 u p = 200) ∧
    (∀ (u : Js) (e : String),
        serverStatus_p4 "POST" "/webhook" (some u) (fun _ => Except.error e) = 500) ∧
    (∀ (p : Js → Except String Unit),
        serverStatus_p4 "POST" "/webhook" none p = 500) ∧
    (∀ (u : Js) (p : Js → Except String Unit),
        serverStatus_p4 "POST" "/webhook" (some u) p = 200 ∨
        serverStatus_p4 "POST" "/webhook" (some u) p = 500) := by
  refine ⟨?_, ?_, ?_, ?_, ?_⟩
  · intro u p
    cases h : p u <;> simp [webhookStatus_index, h]
  · intro u p
    cases h : p u <;> simp [webhookStatus_p000, h]
  · intro u e
    rfl
  · intro p
    rfl
  · intro u p
    cases h : p u <;> simp [serverStatus_p4, h]

/-!
## Provider clients

An obtained HTTP response, as the Checko clients consume it: the `ok`
flag (`status` in 200–299), the numeric status, the raw body text and the
result of parsing the body as JSON (`none` models a parse failure).
-/

/-- An HTTP response delivered to a provider client. -/
structure HttpResp where
  ok : Bool
  status : Nat
  text : String
  body : Option Js

/-- `fetchCheckoCompany` from `src/index.js` (lines 118–165): without an
API key, a `warning` object; a non-JSON body gives a `not_found` object
with `source_error` and the first 2000 chars of the text; a body with a
truthy `error` field gives a `not_found` object carrying it; otherwise
the success object `{provider, inn, raw}`. The HTTP status is never
consulted. -/
def fetchCheckoCompany_index (hasKey : Bool) (inn : String) (r : HttpResp) : Js :=
  if !hasKey then
    Js.obj [("provider", .str "checko"),
            ("warning", .str "CHECKO_API_KEY не задан — Checko отключен (демо-режим)."),
            ("inn", .str inn),
            ("raw", .jsnull)]
  else
    match r.body with
    | none =>
      Js.obj [("provider", .str "checko"), ("inn", .str inn),
              ("not_found", .bool true),
              ("source_error", .str "Checko вернул не-JSON"),
              ("raw_text", .str (r.text.take 2000))]
    | some data =>
      if (data.get "error").truthy then
        Js.obj [("provider", .str "checko"), ("inn", .str inn),
                ("not_found", .bool true),
                ("source_error", data.get "error"),
                ("raw", data)]
      else
        Js.obj [("provider", .str "checko"), ("inn", .str inn), ("raw", data)]

/-- `fetchCheckoCompany` from `src/unnamed/part_001` (lines 381–390):
missing key, non-ok status and truthy `error` body all yield an object
with a truthy `error` field; otherwise the parsed body itself is
returned (`r.json().catch(() => ({}))` makes a parse failure `{}`). -/
def fetchCheckoCompany_p1 (hasKey : Bool) (r : HttpResp) : Js :=
  if !hasKey then
    Js.obj [("error", .str "CHECKO_API_KEY не задан. Провайдер отключен.")]
  else
    let data := r.body.getD (.obj [])
    if !r.ok then
      Js.obj [("error", .str "Checko вернул ошибку"), ("http", .num r.status), ("data", data)]
    else if (data.get "error").truthy then
      Js.obj [("error", .str "Checko error"), ("data", data)]
    else data

/-- The `{error, raw}` pair produced by `fetchCheckoCompany` of the
second document in `src/unnamed/part_000` (lines 717–738). -/
structure CheckoResult_p000 where
  error : Js
  raw : Js

/-- `fetchCheckoCompany` from `src/unnamed/part_000` (second document):
missing key → error string; parse failure leaves `raw` null
(`r.json().catch(() => null)`); non-ok status → `"Checko HTTP <status>"`;
falsy or error-carrying body → `raw?.error || "Unknown error"`; success →
null error. -/
def fetchCheckoCompany_p000v2 (hasKey : Bool) (r : HttpResp) : CheckoResult_p000 :=
  if !hasKey then
    ⟨.str "CHECKO_API_KEY не задан. Данные провайдера недоступны.", .jsnull⟩
  else
    let raw := r.body.getD .jsnull
    if !r.ok then
      ⟨.str ("Checko HTTP " ++ toString r.status), raw⟩
    else if !raw.truthy || (raw.get "error").truthy then
      ⟨(raw.get "error").orJs (.str "Unknown error"), raw⟩
    else
      ⟨.jsnull, raw⟩

/-- The outcome shape of `fetchCheckoByInn` in `src/unnamed/part_005`. -/
structure CheckoOutcome_p5 where
  ok : Bool
  warning : Option String
  error : Option String
  raw : Option Js

/-- `fetchCheckoByInn` from `src/unnamed/part_005` (lines 220–237):
missing key → `{ok: false, warning}`; non-ok status →
`{ok: false, error: "HTTP <status>", raw}`; otherwise `{ok: true, raw}`
(the body's own `error` field is not inspected). -/
def fetchCheckoByInn_p5 (hasKey : Bool) (r : HttpResp) : CheckoOutcome_p5 :=
  if !hasKey then
    ⟨false, some "CHECKO_API_KEY не задан. Сейчас демо-режим.", none, none⟩
  else
    let data := r.body.getD (.obj [])
    if !r.ok then
      ⟨false, none, some ("HTTP " ++ toString r.status), some data⟩
    else
      ⟨true, none, none, some data⟩

lemma append_left_ne_empty (a b : String) (ha : a ≠ "") : a ++ b ≠ "" := by
  intro hc
  apply ha
  have h2 := congrArg String.data hc
  rw [String.data_append] at h2
  have h3 : a.data = [] := (List.append_eq_nil.mp h2).1
  exact String.ext h3

/-- Claim C7 counterexample: `src/index.js`'s `fetchCheckoCompany` on an
HTTP 500 response with a clean JSON body returns the success shape — no
`not_found`, no `warning`, a truthy `raw` — instead of a typed failure;
and `part_005`'s `fetchCheckoByInn` on a 200 response whose body carries
an `error` field returns `ok: true`. -/
theorem c7_provider_counterexample :
    ((fetchCheckoCompany_index true "7707083893"
        ⟨false, 500, "", some (Js.obj [("data", Js.obj [])])⟩).get "not_found").truthy
      = false ∧
    ((fetchCheckoCompany_index true "7707083893"
        ⟨false, 500, "", some (Js.obj [("data", Js.obj [])])⟩).get "warning").truthy
      = false ∧
    ((fetchCheckoCompany_index true "7707083893"
        ⟨false, 500, "", some (Js.obj [("data", Js.obj [])])⟩).get "raw").truthy
      = true ∧
    (fetchCheckoByInn_p5 true
        ⟨true, 200, "", some (Js.obj [("error", Js.str "Требуется оплата тарифа")])⟩).ok
      = true :=
  ⟨rfl, rfl, rfl, rfl⟩

/-- C7 (amended): once an HTTP response is obtained every variant returns
normally with a structured value (the definitions are total); `part_005`
classifies every non-ok status as a typed failure (`ok = false`),
`part_001` and `part_000` classify both non-ok statuses and truthy error
bodies as typed failures, and `src/index.js` classifies non-JSON bodies
and truthy error bodies as `not_found` failures but ignores the HTTP
status entirely. -/
theorem c7_provider_typed_outcomes :
    (∀ r : HttpResp, r.ok = false → (fetchCheckoByInn_p5 true r).ok = false) ∧
    (∀ r : HttpResp, r.ok = false →
        ((fetchCheckoCompany_p1 true r).get "error").truthy = true) ∧
    (∀ r : HttpResp, r.ok = false →
        (fetchCheckoCompany_p000v2 true r).error.truthy = true) ∧
    (∀ (r : HttpResp) (d : Js), r.body = some d → (d.get "error").truthy = true →
        ((fetchCheckoCompany_p1 true r).get "error").truthy = true) ∧
    (∀ (r : HttpResp) (d : Js), r.body = some d → (d.get "error").truthy = true →
        (fetchCheckoCompany_p000v2 true r).error.truthy = true) ∧
    (∀ (inn : String) (r : HttpResp) (d : Js),
        r.body = some d → (d.get "error").truthy = true →
        ((fetchCheckoCompany_index true inn r).get "not_found").truthy = true) ∧
    (∀ (inn : String) (r : HttpResp), r.body = none →
        ((fetchCheckoCompany_index true inn r).get "not_found").truthy = true) := by
  refine ⟨?_, ?_, ?_, ?_, ?_, ?_, ?_⟩
  · intro r h
    simp [fetchCheckoByInn_p5, h]
  · intro r h
    simp [fetchCheckoCompany_p1, h, Js.get, Js.lookupField, Js.truthy]
  · intro r h
    have hne : ("Checko HTTP " ++ toString r.status) ≠ "" :=
      append_left_ne_empty _ _ (by decide)
    simp [fetchCheckoCompany_p000v2, h, Js.truthy, hne]
  · intro r d hb he
    by_cases hok : r.ok
    · simp [fetchCheckoCompany_p1, hb, hok]
      rw [he]
      simp [Js.get, Js.lookupField, Js.truthy]
    · simp only [Bool.not_eq_true] at hok
      simp [fetchCheckoCompany_p1, hok, Js.get, Js.lookupField, Js.truthy]
  · intro r d hb he
    by_cases hok : r.ok
    · have htr : d.truthy = true := by
        cases d <;> simp_all [Js.get, Js.truthy]
      simp [fetchCheckoCompany_p000v2, hok, hb, he, htr, Js.orJs]
    · simp only [Bool.not_eq_true] at hok
      have hne : ("Checko HTTP " ++ toString r.status) ≠ "" :=
        append_left_ne_empty _ _ (by decide)
      simp [fetchCheckoCompany_p000v2, hok, Js.truthy, hne]
  · intro inn r d hb he
    simp [fetchCheckoCompany_index, hb]
    rw [he]
    simp [Js.get, Js.lookupField, Js.truthy]
  · intro inn r hb
    simp [fetchCheckoCompany_index, hb, Js.get, Js.lookupField, Js.truthy]

/-- Claim C7 witness: the amended classifications evaluated on a 500
response and on a 200 response with an error body. -/
theorem c7_provider_typed_outcomes_witness :
    (fetchCheckoByInn_p5 true ⟨false, 500, "", some (Js.obj [])⟩).ok = false ∧
    ((fetchCheckoCompany_p1 true ⟨false, 500, "", some (Js.obj [])⟩).get "error").truthy
      = true ∧
    (fetchCheckoCompany_p000v2 true ⟨false, 500, "", some (Js.obj [])⟩).error.truthy
      = true ∧
    ((fetchCheckoCompany_p1 true
        ⟨true, 200, "", some (Js.obj [("error", Js.str "x")])⟩).get "error").truthy = true ∧
    (fetchCheckoCompany_p000v2 true
        ⟨true, 200, "", some (Js.obj [("error", Js.str "x")])⟩).error.truthy = true ∧
    ((fetchCheckoCompany_index true "7707083893"
        ⟨true, 200, "", some (Js.obj [("error", Js.str "x")])⟩).get "not_found").truthy
      = true ∧
    ((fetchCheckoCompany_index true "7707083893"
        ⟨false, 500, "not json", none⟩).get "not_found").truthy = true :=
  ⟨c7_provider_typed_outcomes.1 _ rfl,
   c7_provider_typed_outcomes.2.1 _ rfl,
   c7_provider_typed_outcomes.2.2.1 _ rfl,
   c7_provider_typed_outcomes.2.2.2.1 _ _ rfl rfl,
   c7_provider_typed_outcomes.2.2.2.2.1 _ _ rfl rfl,
   c7_provider_typed_outcomes.2.2.2.2.2.1 "7707083893" _ _ rfl rfl,
   c7_provider_typed_outcomes.2.2.2.2.2.2 "7707083893" _ rfl⟩

/-!
## Caching of failed lookups

`handleInn` in `src/unnamed/part_001` (lines 370–395) returns before
`setCachedInn` whenever the provider result has a truthy `error` field.
`handleInn` in `src/index.js` (lines 613–630) calls
`cacheSet(inn, "checko", resp.raw, ai)` unconditionally on a cache miss,
and `handleInn` in `src/unnamed/part_004` (lines 559–566) calls
`saveCachedInn(inn, combined)` unconditionally, whatever the provider
outcomes were.
-/

/-- The cache slot for one tax id after `part_001`'s `handleInn`
provider phase: unchanged when the fetched result has a truthy `error`
(the handler replies and returns first), otherwise overwritten with the
result. -/
def innCacheAfter_p1 (raw : Js) (cache : Option Js) : Option Js :=
  if (raw.get "error").truthy then cache else some raw

/-- An `inn_cache` row as `src/index.js` writes it. -/
structure IndexCacheRow where
  provider : String
  raw : Js
  ai_summary : Js
  updated_at : Int

/-- The cache slot for one tax id after the cache-miss branch of
`src/index.js`'s `handleInn`: `cacheSet` upserts unconditionally with
`resp.raw` and the AI summary. -/
def handleInnCacheMiss_index (resp ai : Js) (now : Int) (cache : Option IndexCacheRow) :
    Option IndexCacheRow :=
  some ⟨"checko", resp.get "raw", ai, now⟩

/-- The cache slot for one tax id after the fresh-fetch branch of
`part_004`'s `handleInn`: `saveCachedInn` upserts the combined
`{dadata, checko, fetched_at}` object unconditionally (the fetch
timestamp is modelled as ms). -/
def handleInnCacheSave_p4 (dadata checko : Js) (now : Int) (cache : Option Js) :
    Option Js :=
  some (Js.obj [("dadata", dadata), ("checko", checko), ("fetched_at", Js.num now)])

/-- Claim C4 counterexample: in `src/index.js`, a provider call whose
body carries a truthy `error` field yields a `not_found` failure outcome,
yet `handleInn` still writes a cache row for the tax id — the failed
response is cached, contradicting "stores nothing in the cache". -/
theorem c4_negative_caching_counterexample :
    ((fetchCheckoCompany_index true "7707083893"
        ⟨true, 200, "", some (Js.obj [("error", Js.str "лимит исчерпан")])⟩).get
          "not_found").truthy = true ∧
    handleInnCacheMiss_index
        (fetchCheckoCompany_index true "7707083893"
          ⟨true, 200, "", some (Js.obj [("error", Js.str "лимит исчерпан")])⟩)
        (Js.str "ai") 0 none
      = some ⟨"checko", Js.obj [("error", Js.str "лимит исчерпан")], Js.str "ai", 0⟩ :=
  ⟨rfl, rfl⟩

/-- C4 (amended): `part_001`'s pipeline never caches a failed lookup —
for a missing API key, a non-ok HTTP status or an error body the cache is
left unchanged, so the next request retries the provider; the
`src/index.js` and `part_004` pipelines instead write a cache row
unconditionally on a cache miss, failure outcomes included. -/
theorem c4_failed_lookup_not_cached :
    (∀ (r : HttpResp) (cache : Option Js),
        innCacheAfter_p1 (fetchCheckoCompany_p1 false r) cache = cache) ∧
    (∀ (r : HttpResp) (cache : Option Js), r.ok = false →
        innCacheAfter_p1 (fetchCheckoCompany_p1 true r) cache = cache) ∧
    (∀ (r : HttpResp) (d : Js) (cache : Option Js),
        r.body = some d → (d.get "error").truthy = true →
        innCacheAfter_p1 (fetchCheckoCompany_p1 true r) cache = cache) ∧
    (∀ (resp ai : Js) (now : Int) (cache : Option IndexCacheRow),
        handleInnCacheMiss_index resp ai now cache ≠ none) ∧
    (∀ (dadata checko : Js) (now : Int) (cache : Option Js),
        handleInnCacheSave_p4 dadata checko now cache ≠ none) := by
  refine ⟨?_, ?_, ?_, ?_, ?_⟩
  · intro r cache
    simp [innCacheAfter_p1, fetchCheckoCompany_p1, Js.get, Js.lookupField, Js.truthy]
  · intro r cache h
    simp [innCacheAfter_p1, fetchCheckoCompany_p1, h, Js.get, Js.lookupField, Js.truthy]
  · intro r d cache hb he
    by_cases hok : r.ok
    · simp [fetchCheckoCompany_p1, hb, hok]
      rw [he]
      simp [innCacheAfter_p1, Js.get, Js.lookupField, Js.truthy]
    · simp only [Bool.not_eq_true] at hok
      simp [innCacheAfter_p1, fetchCheckoCompany_p1, hok, Js.get, Js.lookupField, Js.truthy]
  · intro resp ai now cache
    simp [handleInnCacheMiss_index]
  · intro dadata checko now cache
    simp [handleInnCacheSave_p4]

/-- Claim C4 witness: `part_001` leaves a previously cached value in
place when the provider answers HTTP 500 or an error body. -/
theorem c4_failed_lookup_not_cached_witness :
    innCacheAfter_p1 (fetchCheckoCompany_p1 true ⟨false, 500, "", some (Js.obj [])⟩)
        (some (Js.str "old")) = some (Js.str "old") ∧
    innCacheAfter_p1
        (fetchCheckoCompany_p1 true ⟨true, 200, "", some (Js.obj [("error", Js.str "x")])⟩)
        none = none :=
  ⟨c4_failed_lookup_not_cached.2.1 _ _ rfl,
   c4_failed_lookup_not_cached.2.2.1 _ _ _ rfl rfl⟩

/-!
## Normalizer

`normalizeCompany` in the second document of `src/unnamed/part_000`
(lines 740–768) and `pickCompanyInfo` in `src/unnamed/part_001` (lines
179–213) map a raw provider payload to a canonical record by probing
ordered field-path candidates.
-/

/-- The canonical company record built by `normalizeCompany`: each field
is the first truthy candidate, or JS `null` (`name || null` etc.). -/
structure Company where
  name : Js
  ogrn : Js
  kpp : Js
  status : Js
  address : Js
  risk_level : String

/-- `normalizeCompany` from `src/unnamed/part_000` (second document):
`data = checkoRaw?.data || checkoRaw?.result || checkoRaw || null`; a
falsy `data` gives `null`, otherwise a record whose fields probe the
documented candidate paths and default to `null`. -/
def normalizeCompany (checkoRaw : Js) : Option Company :=
  let data := (checkoRaw.get "data").orJs ((checkoRaw.get "result").orJs checkoRaw)
  if data.truthy then
    let name := (data.get "short_name").orJs ((data.get "name").orJs
      ((data.get "full_name").orJs (((data.get "ul").get "name").orJs
        ((data.get "ip").get "fio"))))
    let ogrn := (data.get "ogrn").orJs (((data.get "ul").get "ogrn").orJs
      ((data.get "ip").get "ogrnip"))
    let kpp := (data.get "kpp").orJs ((data.get "ul").get "kpp")
    let status := (data.get "status").orJs ((data.get "state").orJs
      ((data.get "ul").get "status"))
    let address := (data.get "address").orJs (((data.get "ul").get "address").orJs
      (((data.get "address").get "value").orJs ((data.get "fns").get "address")))
    some ⟨name.orNull, ogrn.orNull, kpp.orNull, status.orNull, address.orNull, "—"⟩
  else
    none

/-- The record returned by `pickCompanyInfo` of `src/unnamed/part_001`. -/
structure PickedInfo where
  name : Js
  inn : Js
  kpp : Js
  ogrn : Js
  status : Js
  address : Js
  okved : Js
  ceo : Js
  raw : Js

/-- `pickCompanyInfo` from `src/unnamed/part_001`: unwraps
`payload?.data || payload`, picks the company container among the known
nestings, probes the candidate paths per field, and always returns a
record carrying the original payload in `raw` — it never returns null. -/
def pickCompanyInfo (payload : Js) : PickedInfo :=
  let data := (payload.get "data").orJs payload
  let company := (data.get "company").orJs
    ((((data.get "suggestions").idx 0).get "data").orJs
      (((data.get "items").idx 0).orJs data))
  let name := ((company.get "name").get "full_with_opf").orJs
    (((company.get "name").get "full").orJs ((company.get "short_name").orJs
      ((company.get "name").orJs (company.get "full_name"))))
  let ogrn := (company.get "ogrn").orJs (company.get "OGRN")
  let inn := (company.get "inn").orJs (company.get "INN")
  let kpp := (company.get "kpp").orJs (company.get "KPP")
  let status := (company.get "status").orJs (((company.get "state").get "status").orJs
    (company.get "state"))
  let address := ((company.get "address").get "value").orJs
    (((company.get "address").get "unrestricted_value").orJs
      ((company.get "address").orJs (company.get "legal_address")))
  let okved := (company.get "okved").orJs (((company.get "okveds").idx 0).get "code")
  let ceo := ((company.get "management").get "name").orJs
    (((company.get "director").get "name").orJs ((company.get "ceo").orJs
      (company.get "boss")))
  ⟨name, inn, kpp, ogrn, status, address, okved, ceo, payload⟩

lemma orJs_truthy (a b : Js) : (a.orJs b).truthy = (a.truthy || b.truthy) := by
  by_cases h : a.truthy = true
  · simp [Js.orJs, h]
  · simp [Js.orJs, h]

lemma normalize_data_truthy (raw : Js) :
    ((raw.get "data").orJs ((raw.get "result").orJs raw)).truthy = raw.truthy := by
  rw [orJs_truthy, orJs_truthy]
  cases raw <;> simp [Js.get, Js.truthy]

lemma normalizeCompany_eq_none_iff (raw : Js) :
    normalizeCompany raw = none ↔ raw.truthy = false := by
  by_cases h : raw.truthy
  · rw [normalizeCompany]
    simp [normalize_data_truthy, h]
  · simp only [Bool.not_eq_true] at h
    rw [normalizeCompany]
    simp [normalize_data_truthy, h]

/-- C8: `normalizeCompany` returns null exactly when the payload offers
no recognizable structure (a falsy payload — `undefined`, `null`,
`false`, `0` or `""`); every object payload, however many fields are
missing, yields a partial record (the empty object maps to a record with
every probed field null); and `pickCompanyInfo` returns a record carrying
the original payload for every input, never null. -/
theorem c8_normalize_partial_records :
    (∀ raw : Js, normalizeCompany raw = none ↔ raw.truthy = false) ∧
    (∀ fields : List (String × Js), ∃ rec, normalizeCompany (Js.obj fields) = some rec) ∧
    normalizeCompany (Js.obj [])
      = some ⟨Js.jsnull, Js.jsnull, Js.jsnull, Js.jsnull, Js.jsnull, "—"⟩ ∧
    (∀ payload : Js, (pickCompanyInfo payload).raw = payload) := by
  refine ⟨normalizeCompany_eq_none_iff, ?_, ?_, ?_⟩
  · intro fields
    rw [← Option.ne_none_iff_exists']
    intro hc
    rw [normalizeCompany_eq_none_iff] at hc
    simp [Js.truthy] at hc
  · rfl
  · intro payload
    rfl

/-!
## HTML escaping and message rendering

`escapeHtml` (identical in `src/index.js` lines 104–109 and
`src/unnamed/part_000` lines 280–285) chains
`replaceAll("&", "&amp;")`, `replaceAll("<", "&lt;")`,
`replaceAll(">", "&gt;")`; with single-character patterns each pass is a
character-wise expansion, modelled as three `flatMap` passes over the
character list. `formatCompanyResult` (`part_000`, first document, lines
235–277) renders the HTML-flavoured chat message.
-/

/-- One character of the `replaceAll("&", "&amp;")` pass. -/
def escAmp (c : Char) : List Char :=
  if c = '&' then ['&', 'a', 'm', 'p', ';'] else [c]

/-- One character of the `replaceAll("<", "&lt;")` pass. -/
def escLt (c : Char) : List Char :=
  if c = '<' then ['&', 'l', 't', ';'] else [c]

/-- One character of the `replaceAll(">", "&gt;")` pass. -/
def escGt (c : Char) : List Char :=
  if c = '>' then ['&', 'g', 't', ';'] else [c]

/-- `escapeHtml` from `src/index.js` / `src/unnamed/part_000`: the three
sequential `replaceAll` passes. -/
def escapeHtml (s : String) : String :=
  String.mk (((s.data.flatMap escAmp).flatMap escLt).flatMap escGt)

/-- Occurrences of a character in a string. -/
def countChar (c : Char) (s : String) : Nat :=
  s.data.count c

/-- JS truthiness of the string-valued payload fields the formatter
tests: absent (`undefined`) and empty strings are falsy. -/
def truthyS : Option String → Bool
  | none => false
  | some s => s != ""

/-- JS `a || b` on string-valued fields. -/
def orS (a b : Option String) : Option String :=
  if truthyS a then a else b

/-- The DaData record fields probed by `formatCompanyResult`
(`dd = dadata?.item?.data`), flattened to the leaf paths the code reads,
as string-valued payload fields. -/
structure DdData where
  name_full_with_opf : Option String
  name_short_with_opf : Option String
  name_full : Option String
  name_short : Option String
  ogrn : Option String
  ogrnip : Option String
  kpp : Option String
  state_status : Option String
  state_actuality_date : Option String
  address_value : Option String
  management_name : Option String

/-- The parts of the Checko provider outcome read by the formatter:
truthiness of `error`, the HTTP `status`, the `warning` string and
truthiness of `raw`. -/
structure CheckoView where
  error : Bool
  status : Nat
  warning : Option String
  raw : Bool

/-- `Array.prototype.join("\n")` over the collected lines. -/
def joinLines : List String → String
  | [] => ""
  | [x] => x
  | x :: y :: xs => x ++ "\n" ++ joinLines (y :: xs)

/-- `formatCompanyResult` from `src/unnamed/part_000` (first document):
pushes the tax-id header, then per-field lines for the DaData record —
name, status, actuality date, address and manager pass through
`escapeHtml`, while the ОГРН/ОГРНИП and КПП values and the tax id are
interpolated raw — then the Checko status line, and joins with
newlines. -/
def formatCompanyResult (inn : String) (dd : Option DdData) (checko : CheckoView) :
    String :=
  let firstLines := ["🔎 <b>ИНН:</b> <code>" ++ inn ++ "</code>"]
  let ddLines :=
    match dd with
    | some d =>
      let name := orS d.name_full_with_opf
        (orS d.name_short_with_opf (orS d.name_full d.name_short))
      let ogrn := orS d.ogrn d.ogrnip
      (if truthyS name then
        ["🏢 <b>Организация:</b> " ++ escapeHtml (name.getD "")] else []) ++
      (if truthyS ogrn then
        ["🆔 <b>ОГРН/ОГРНИП:</b> <code>" ++ ogrn.getD "" ++ "</code>"] else []) ++
      (if truthyS d.kpp then
        ["📎 <b>КПП:</b> <code>" ++ d.kpp.getD "" ++ "</code>"] else []) ++
      (if truthyS d.state_status then
        ["✅ <b>Статус:</b> " ++ escapeHtml (d.state_status.getD "")] else []) ++
      (if truthyS d.state_actuality_date then
        ["🗓 <b>Актуальность:</b> " ++ escapeHtml (d.state_actuality_date.getD "")]
       else []) ++
      (if truthyS d.address_value then
        ["📍 <b>Адрес:</b> " ++ escapeHtml (d.address_value.getD "")] else []) ++
      (if truthyS d.management_name then
        ["👤 <b>Руководитель:</b> " ++ escapeHtml (d.management_name.getD "")] else [])
    | none => ["⚠️ DaData: нет данных (или токен не задан)."]
  let checkoLines :=
    if checko.error then
      ["⚠️ Checko: ошибка ответа (status " ++ toString checko.status ++ ")"]
    else if truthyS checko.warning then
      ["ℹ️ Checko: " ++ escapeHtml (checko.warning.getD "")]
    else if checko.raw then
      ["💎 <b>PRO (Checko):</b> данные получены ✅",
       "(Риск-баллы покажем, когда подтвердим поле в ответе API)"]
    else []
  joinLines (firstLines ++ ddLines ++ checkoLines)

lemma lt_not_mem_escLt (c : Char) : '<' ∉ escLt c := by
  by_cases h : c = '<'
  · simp [escLt, h]
  · simp [escLt, h]
    exact fun hc => h hc.symm

lemma lt_mem_escGt {c : Char} (h : '<' ∈ escGt c) : c = '<' := by
  by_cases hc : c = '>'
  · simp [escGt, hc] at h
  · simp [escGt, hc] at h
    exact h.symm

lemma gt_not_mem_escGt (c : Char) : '>' ∉ escGt c := by
  by_cases h : c = '>'
  · simp [escGt, h]
  · simp [escGt, h]
    exact fun hc => h hc.symm

lemma escapeHtml_count_lt (s : String) : countChar '<' (escapeHtml s) = 0 := by
  rw [countChar, List.count_eq_zero]
  intro hmem
  simp only [escapeHtml] at hmem
  rw [List.mem_flatMap] at hmem
  obtain ⟨c, hc, hlt⟩ := hmem
  have hc' : c = '<' := lt_mem_escGt hlt
  subst hc'
  rw [List.mem_flatMap] at hc
  obtain ⟨b, _, hb2⟩ := hc
  exact lt_not_mem_escLt b hb2

lemma escapeHtml_count_gt (s : String) : countChar '>' (escapeHtml s) = 0 := by
  rw [countChar, List.count_eq_zero]
  intro hmem
  simp only [escapeHtml] at hmem
  rw [List.mem_flatMap] at hmem
  obtain ⟨c, _, hgt⟩ := hmem
  exact gt_not_mem_escGt c hgt

lemma countChar_append (c : Char) (a b : String) :
    countChar c (a ++ b) = countChar c a + countChar c b := by
  simp [countChar, String.data_append]

lemma countChar_joinLines (c : Char) (hc : c ≠ '\n') (l : List String) :
    countChar c (joinLines l) = (l.map (countChar c)).sum := by
  induction l with
  | nil => simp [joinLines, countChar]
  | cons x xs ih =>
    cases xs with
    | nil => simp [joinLines, countChar]
    | cons y ys =>
      have hnl : countChar c "\n" = 0 := by
        rw [countChar, List.count_eq_zero]
        intro hmem
        apply hc
        simpa using hmem
      rw [joinLines, countChar_append, countChar_append, hnl, ih]
      simp
      try omega

/-- Claim C5 counterexample: with the DaData record carrying
`ogrn = "<<<"`, the rendered message contains the three raw `<`
characters of the untrusted registration number (13 `<` in total), while
routing the same value through `escapeHtml` would leave only the 10
template-tag `<` characters — the ОГРН interpolation does not pass
through the HTML escaper. -/
theorem c5_unescaped_counterexample :
    countChar '<' (formatCompanyResult "7707083893"
        (some ⟨some "Ромашка", none, none, none, some "<<<", none, none, none, none,
               none, none⟩)
        ⟨false, 0, none, false⟩) = 13 ∧
    countChar '<' (formatCompanyResult "7707083893"
        (some ⟨some "Ромашка", none, none, none, some (escapeHtml "<<<"), none, none,
               none, none, none, none⟩)
        ⟨false, 0, none, false⟩) = 10 := by
  constructor
  · decide
  · decide

/-- C5 (amended): `escapeHtml` output never contains `<` or `>`, and in
the rendered message the name, status, actuality date, address, manager
and Checko warning strings — all passed through `escapeHtml` — contribute
no `<` or `>` beyond the fixed template markup (14 of each for this line
pattern, whatever the six untrusted strings are); the ОГРН/КПП values and
the tax id, however, are interpolated without escaping. -/
theorem c5_escaping_contract :
    (∀ s : String, countChar '<' (escapeHtml s) = 0 ∧ countChar '>' (escapeHtml s) = 0) ∧
    (∀ n st dt ad mg w : String,
        n ≠ "" → st ≠ "" → dt ≠ "" → ad ≠ "" → mg ≠ "" → w ≠ "" →
        countChar '<' (formatCompanyResult "7707083893"
            (some ⟨some n, none, none, none, none, none, none, some st, some dt,
                   some ad, some mg⟩)
            ⟨false, 0, some w, false⟩) = 14 ∧
        countChar '>' (formatCompanyResult "7707083893"
            (some ⟨some n, none, none, none, none, none, none, some st, some dt,
                   some ad, some mg⟩)
            ⟨false, 0, some w, false⟩) = 14) := by
  constructor
  · intro s
    exact ⟨escapeHtml_count_lt s, escapeHtml_count_gt s⟩
  · intro n st dt ad mg w hn hst hdt had hmg hw
    constructor
    · rw [formatCompanyResult]
      simp only [orS, truthyS]
      simp [hn, hst, hdt, had, hmg, hw]
      rw [countChar_joinLines _ (by decide)]
      simp [countChar_append, escapeHtml_count_lt]
      decide
    · rw [formatCompanyResult]
      simp only [orS, truthyS]
      simp [hn, hst, hdt, had, hmg, hw]
      rw [countChar_joinLines _ (by decide)]
      simp [countChar_append, escapeHtml_count_gt]
      decide

/-- Claim C5 witness: the template-only markup counts evaluated with
markup-laden untrusted field values. -/
theorem c5_escaping_contract_witness :
    countChar '<' (formatCompanyResult "7707083893"
        (some ⟨some "ООО <Ромашка> & Ко", none, none, none, none, none, none,
               some "ACTIVE>", some "<2024-01-01", some "Москва & Тверская",
               some "Иванов <И.И.>"⟩)
        ⟨false, 0, some "нет ключа &", false⟩) = 14 ∧
    countChar '>' (formatCompanyResult "7707083893"
        (some ⟨some "ООО <Ромашка> & Ко", none, none, none, none, none, none,
               some "ACTIVE>", some "<2024-01-01", some "Москва & Тверская",
               some "Иванов <И.И.>"⟩)
        ⟨false, 0, some "нет ключа &", false⟩) = 14 :=
  c5_escaping_contract.2 "ООО <Ромашка> & Ко" "ACTIVE>" "<2024-01-01"
    "Москва & Тверская" "Иванов <И.И.>" "нет ключа &"
    (by decide) (by decide) (by decide) (by decide) (by decide) (by decide)

end InnBot
